import Mathlib

/-!
Shallow embedding of the two bokeh dashboards of this repository
(src/locodams/main.py and src/locoflow/main.py) and proofs about their
playback controller logic.

Numeric columns are modelled over the rationals; a bokeh column data
source is a mapping from column names to columns, and a python dict
assignment is an override of one key.  Python list index assignment,
which accepts negative indices counting from the end, is modelled by
pySet.  The per-dashboard callback functions (redraw2, redraw_points,
redraw_tapes, redraw_lines, animate, slider_update, update) are
translated line by line from the source; the global mutable variables
(index, the data sources, the slider value, the button label and the
set of registered periodic callbacks) become fields of explicit state
records.  Setting slider.value inside animate and slider_update is
modelled as a display update of the slider field, as the source shows;
scheduling of the periodic callback by the bokeh host is modelled by a
counter of registered callbacks.
-/

namespace DampPlains

/-- A column data source of a glyph: column names mapped to numeric columns,
as the data dictionaries of the circle and vbar glyphs in both dashboards. -/
abbrev ColumnData := String → List ℚ

/-- The data source of the multi_line glyph of the flow dashboard:
column names mapped to lists of paths. -/
abbrev PathData := String → List (List ℚ)

/-- Python dict assignment d[key] = v on a column data source. -/
def dictSet (d : ColumnData) (key : String) (v : List ℚ) : ColumnData :=
  fun s => if s = key then v else d s

/-- Python dict assignment d[key] = v on a multi_line data source. -/
def pathSet (d : PathData) (key : String) (v : List (List ℚ)) : PathData :=
  fun s => if s = key then v else d s

/-- Python list assignment xs[i] = v: a negative index counts from the end
of the list, as in alpha[k-1] for k = 0 in redraw2. -/
def pySet (xs : List ℚ) (i : Int) (v : ℚ) : List ℚ :=
  if 0 ≤ i then xs.set i.toNat v else xs.set (xs.length - (-i).toNat) v

/-- Play and pause button state together with the number of periodic
callbacks currently registered with the document: update switches the
button label and adds or removes one periodic callback. -/
structure Playback where
  label : String
  timers : ℕ
  deriving DecidableEq

/-- The initial playback state of both dashboards: button label Play,
no periodic callback registered. -/
def Playback.stopped : Playback := { label := "Play", timers := 0 }

namespace Locodams

/-- Default lo argument of redraw2. -/
def lo : ℚ := 3 / 10

/-- Default hi argument of redraw2. -/
def hi : ℚ := 9 / 10

/-- The alpha list written by redraw2 for an element of series length m at
frame k: alpha = [lo if i < k else 0 for i in range(m)] followed by the
python assignment alpha[k-1] = hi. -/
def redraw2_alpha (m k : ℕ) : List ℚ :=
  pySet ((List.range m).map (fun i => if i < k then lo else 0)) ((k : ℤ) - 1) hi

/-- The effect of redraw2 on one element data source with series length m:
props = dict(d.data); props[fill_alpha] = alpha; d.data = props. -/
def redraw2_elem (m k : ℕ) (d : ColumnData) : ColumnData :=
  dictSet d "fill_alpha" (redraw2_alpha m k)

/-- Controller state of the dams dashboard: the frame index, the data
sources of the four glyph elements, and the displayed slider value. -/
structure State where
  index : ℕ
  ds : List ColumnData
  sliderValue : ℕ

/-- redraw2 over all bound elements; element j uses its own series
length nlist[j], mirroring for (j, d) in enumerate(ds) with range(n[j]). -/
def redraw2 (nlist : List ℕ) (k : ℕ) (ds : List ColumnData) : List ColumnData :=
  (nlist.zip ds).map (fun p => redraw2_elem p.1 k p.2)

/-- animate of the dams dashboard: while index < n[0], increment index and
redraw at the new index; otherwise write an all zero fill_alpha of length
n[j] to every element and reset index to 0; finally push index to the
slider display. -/
def animate (nlist : List ℕ) (s : State) : State :=
  if s.index < nlist.getD 0 0 then
    { index := s.index + 1,
      ds := redraw2 nlist (s.index + 1) s.ds,
      sliderValue := s.index + 1 }
  else
    { index := 0,
      ds := (nlist.zip s.ds).map (fun p => dictSet p.2 "fill_alpha" (List.replicate p.1 0)),
      sliderValue := 0 }

/-- slider_update of the dams dashboard: set index to the slider value k
and redraw every element at k. -/
def slider_update (nlist : List ℕ) (k : ℕ) (s : State) : State :=
  { index := k, ds := redraw2 nlist k s.ds, sliderValue := k }

/-- update of the dams dashboard (the play and pause button callback):
if the label is Play, set it to Pause and register the periodic animate
callback; otherwise set it to Play and remove the callback. -/
def update (p : Playback) : Playback :=
  if p.label = "Play" then { label := "Pause", timers := p.timers + 1 }
  else { label := "Play", timers := p.timers - 1 }

end Locodams

namespace Locoflow

/-- Number of observations in each dataset of the flow dashboard. -/
def n : ℕ := 145

/-- Default lo argument of redraw_tapes. -/
def lo : ℚ := 1 / 5

/-- Default hi argument of redraw_tapes. -/
def hi : ℚ := 9 / 10

/-- The alpha list written by redraw_points at frame k:
alpha = [1. if i == k else 0. for i in range(n)]. -/
def redraw_points_alpha (k : ℕ) : List ℚ :=
  (List.range n).map (fun i => if i = k then 1 else 0)

/-- The alpha list written by redraw_tapes at frame k:
alpha = [lo if i < k else 0 for i in range(n)] followed by the python
assignment alpha[k-1] = hi if k > 0 else 0. -/
def redraw_tapes_alpha (k : ℕ) : List ℚ :=
  pySet ((List.range n).map (fun i => if i < k then lo else 0)) ((k : ℤ) - 1)
    (if 0 < k then hi else 0)

/-- Controller state of the flow dashboard: the frame index, the data
sources of the point and tape glyphs, the multi_line data source, and
the displayed slider value. -/
structure State where
  index : ℕ
  points : List ColumnData
  tapes : List ColumnData
  lines : PathData
  sliderValue : ℕ

/-- redraw_points over all point elements. -/
def redraw_points (ds : List ColumnData) (k : ℕ) : List ColumnData :=
  ds.map (fun d => dictSet d "fill_alpha" (redraw_points_alpha k))

/-- redraw_tapes over all tape elements. -/
def redraw_tapes (ds : List ColumnData) (k : ℕ) : List ColumnData :=
  ds.map (fun d => dictSet d "fill_alpha" (redraw_tapes_alpha k))

/-- redraw_lines at frame k: props = dict(data); props[xs] = [x[:k] for x
in xvals]; props[ys] = [y[:k] for y in yvals]; data = props.  xvals and
yvals are the full gage height series, parameters of the model. -/
def redraw_lines (xvals yvals : List (List ℚ)) (k : ℕ) (d : PathData) : PathData :=
  pathSet (pathSet d "xs" (xvals.map (fun x => x.take k))) "ys"
    (yvals.map (fun y => y.take k))

/-- animate of the flow dashboard: while index < n, increment index and
redraw points, tapes and lines at the new index; otherwise only reset
index to 0; finally push index to the slider display. -/
def animate (xvals yvals : List (List ℚ)) (s : State) : State :=
  if s.index < n then
    { index := s.index + 1,
      points := redraw_points s.points (s.index + 1),
      tapes := redraw_tapes s.tapes (s.index + 1),
      lines := redraw_lines xvals yvals (s.index + 1) s.lines,
      sliderValue := s.index + 1 }
  else
    { s with index := 0, sliderValue := 0 }

/-- slider_update of the flow dashboard: set index to the slider value k
and redraw points, tapes and lines at k. -/
def slider_update (xvals yvals : List (List ℚ)) (k : ℕ) (s : State) : State :=
  { index := k,
    points := redraw_points s.points k,
    tapes := redraw_tapes s.tapes k,
    lines := redraw_lines xvals yvals k s.lines,
    sliderValue := k }

/-- update of the flow dashboard (the play and pause button callback),
identical in structure to the dams version. -/
def update (p : Playback) : Playback :=
  if p.label = "Play" then { label := "Pause", timers := p.timers + 1 }
  else { label := "Play", timers := p.timers - 1 }

end Locoflow

/-- A user visible controller operation: a timer tick (animate) or a
manual slider move to k (slider_update). -/
inductive Op where
  | tick : Op
  | set : ℕ → Op

/-- One controller step of the dams dashboard. -/
def Locodams.step (nlist : List ℕ) : Op → Locodams.State → Locodams.State
  | Op.tick, s => Locodams.animate nlist s
  | Op.set k, s => Locodams.slider_update nlist k s

/-- A sequence of controller steps of the dams dashboard. -/
def Locodams.run (nlist : List ℕ) (ops : List Op) (s : Locodams.State) : Locodams.State :=
  ops.foldl (fun t o => Locodams.step nlist o t) s

/-- One controller step of the flow dashboard. -/
def Locoflow.step (xv yv : List (List ℚ)) : Op → Locoflow.State → Locoflow.State
  | Op.tick, s => Locoflow.animate xv yv s
  | Op.set k, s => Locoflow.slider_update xv yv k s

/-- A sequence of controller steps of the flow dashboard. -/
def Locoflow.run (xv yv : List (List ℚ)) (ops : List Op) (s : Locoflow.State) : Locoflow.State :=
  ops.foldl (fun t o => Locoflow.step xv yv o t) s

/-- The empty column data source, used as a getD default. -/
def emptyColumn : ColumnData := fun _ => []

/-- The empty multi_line data source. -/
def emptyPath : PathData := fun _ => []

/-- The index transition of one animate call of the flow dashboard,
projected to the frame index alone. -/
def flowIndexStep (i : ℕ) : ℕ := if i < Locoflow.n then i + 1 else 0

/-- A flow dashboard start state: index 0 and no bound elements. -/
def flowStart : Locoflow.State :=
  { index := 0, points := [], tapes := [], lines := emptyPath, sliderValue := 0 }

/-- A flow dashboard start state with one bound point element. -/
def flowStartP : Locoflow.State :=
  { index := 0, points := [emptyColumn], tapes := [], lines := emptyPath,
    sliderValue := 0 }

/-- A flow dashboard state sitting at index n with one tape element whose
opacity column holds the single nonzero entry 1. -/
def flowWrapState : Locoflow.State :=
  { index := Locoflow.n, points := [],
    tapes := [dictSet emptyColumn "fill_alpha" [1]],
    lines := emptyPath, sliderValue := Locoflow.n }

/-- A dams dashboard state sitting at index n[0] = 2 with one element. -/
def damsWrapState : Locodams.State :=
  { index := 2, ds := [dictSet emptyColumn "fill_alpha" [1, 1]], sliderValue := 2 }

/-- A dams dashboard start state: index 0 and one bound element. -/
def damsStart : Locodams.State :=
  { index := 0, ds := [emptyColumn], sliderValue := 0 }

/-- Indexing into a block list of p copies of a, then b, then q copies of c. -/
lemma getElem_trail {α : Type} (a b c : α) (p q i : ℕ)
    (h : i < (List.replicate p a ++ b :: List.replicate q c).length) :
    (List.replicate p a ++ b :: List.replicate q c)[i]
      = if i < p then a else if i = p then b else c := by
  rw [List.getElem_append]
  by_cases h1 : i < p
  · simp [h1, List.getElem_replicate]
  · rw [dif_neg (by simpa using h1)]
    by_cases h2 : i = p
    · subst h2
      simp
    · rw [List.getElem_cons]
      rw [dif_neg (by simp [List.length_replicate]; omega)]
      simp [List.getElem_replicate, h1, h2]

/-- Setting index k - 1 of the list [lov if i < k else z for i in range m]
yields the comet trail block shape. -/
lemma comet_shape {α : Type} (z lov hiv : α) (m k : ℕ) (h1 : 1 ≤ k) (h2 : k ≤ m) :
    ((List.range m).map (fun i => if i < k then lov else z)).set (k - 1) hiv
      = List.replicate (k - 1) lov ++ hiv :: List.replicate (m - k) z := by
  apply List.ext_getElem
  · simp
    omega
  · intro i hL hR
    have him : i < m := by simpa using hL
    rw [List.getElem_set, List.getElem_map, List.getElem_range, getElem_trail]
    split_ifs <;> first | rfl | omega

/-- The list [v if i == k else z for i in range m] with k in range is an
all z block except for position k. -/
lemma single_shape {α : Type} (z v : α) (m k : ℕ) (h : k < m) :
    (List.range m).map (fun i => if i = k then v else z)
      = List.replicate k z ++ v :: List.replicate (m - k - 1) z := by
  apply List.ext_getElem
  · simp
    omega
  · intro i hL hR
    have him : i < m := by simpa using hL
    rw [List.getElem_map, List.getElem_range, getElem_trail]
    split_ifs <;> first | rfl | omega

/-- The list [v if i == k else z for i in range m] with k out of range is
all z. -/
lemma single_shape_ge {α : Type} (z v : α) (m k : ℕ) (h : m ≤ k) :
    (List.range m).map (fun i => if i = k then v else z) = List.replicate m z := by
  apply List.ext_getElem
  · simp
  · intro i hL hR
    have him : i < m := by simpa using hL
    rw [List.getElem_map, List.getElem_range, List.getElem_replicate]
    rw [if_neg (by omega)]

/-- The comprehension [v if i < 0 else z for i in range m] is all z. -/
lemma map_range_zero_lt {α : Type} (z v : α) (m : ℕ) :
    (List.range m).map (fun i => if i < 0 then v else z) = List.replicate m z := by
  apply List.ext_getElem
  · simp
  · intro i hL hR
    rw [List.getElem_map, List.getElem_range, List.getElem_replicate]
    simp

/-- Writing the value a replicated list already holds leaves it unchanged. -/
lemma set_replicate_self {α : Type} (z : α) (m j : ℕ) :
    (List.replicate m z).set j z = List.replicate m z := by
  apply List.ext_getElem
  · simp
  · intro i h1 h2
    rw [List.getElem_set]
    split_ifs <;> simp [List.getElem_replicate]

/-- Setting the last position of a replicated list. -/
lemma set_last_replicate {α : Type} (z v : α) (m : ℕ) (h : 1 ≤ m) :
    (List.replicate m z).set (m - 1) v = List.replicate (m - 1) z ++ [v] := by
  apply List.ext_getElem
  · simp
    omega
  · intro i hL hR
    have him : i < m := by simpa using hL
    rw [List.getElem_set, List.getElem_append]
    by_cases h1 : i < m - 1
    · rw [dif_pos (by simpa using h1), if_neg (by omega), List.getElem_replicate,
        List.getElem_replicate]
    · rw [dif_neg (by simpa using h1), if_pos (by omega), List.getElem_cons,
        dif_pos (by simp [List.length_replicate]; omega)]

/-- The python assignment xs[k-1] = v for k at least 1 is an ordinary
in-range list update at position k - 1. -/
lemma pySet_succ (xs : List ℚ) (v : ℚ) (k : ℕ) (h : 1 ≤ k) :
    pySet xs ((k : ℤ) - 1) v = xs.set (k - 1) v := by
  rw [pySet, if_pos (by omega)]
  congr 1
  omega

/-- The python assignment xs[-1] = v writes the last position. -/
lemma pySet_neg_one (xs : List ℚ) (v : ℚ) :
    pySet xs (-1) v = xs.set (xs.length - 1) v := by
  rw [pySet, if_neg (by omega)]
  norm_num

/-- Occurrence count of any value in a comet trail block list. -/
lemma count_trail {α : Type} [DecidableEq α] (a b c x : α) (p q : ℕ) :
    (List.replicate p a ++ b :: List.replicate q c).count x
      = (if a = x then p else 0) + (if c = x then q else 0)
        + (if b = x then 1 else 0) := by
  simp [List.count_append, List.count_cons, List.count_replicate, beq_iff_eq]
  split_ifs <;> omega

/-- redraw2 of the dams dashboard at a frame k between 1 and the series
length writes the comet trail shape: k - 1 entries at lo, one entry at
hi at position k - 1, the rest zero. -/
lemma Locodams.redraw2_alpha_eq (m k : ℕ) (h1 : 1 ≤ k) (h2 : k ≤ m) :
    Locodams.redraw2_alpha m k
      = List.replicate (k - 1) Locodams.lo
        ++ Locodams.hi :: List.replicate (m - k) 0 := by
  rw [Locodams.redraw2_alpha, pySet_succ _ _ _ h1]
  exact comet_shape 0 Locodams.lo Locodams.hi m k h1 h2

/-- redraw2 of the dams dashboard at frame 0 highlights the LAST entry of
the element through the python negative index alpha[-1]. -/
lemma Locodams.redraw2_alpha_zero (m : ℕ) (h : 1 ≤ m) :
    Locodams.redraw2_alpha m 0 = List.replicate (m - 1) 0 ++ [Locodams.hi] := by
  rw [Locodams.redraw2_alpha]
  have h0 : ((0 : ℕ) : ℤ) - 1 = -1 := by norm_num
  rw [h0, pySet_neg_one, map_range_zero_lt, List.length_replicate]
  exact set_last_replicate 0 Locodams.hi m h

/-- redraw_tapes of the flow dashboard at a frame k between 1 and n
writes the comet trail shape. -/
lemma Locoflow.redraw_tapes_alpha_eq (k : ℕ) (h1 : 1 ≤ k) (h2 : k ≤ Locoflow.n) :
    Locoflow.redraw_tapes_alpha k
      = List.replicate (k - 1) Locoflow.lo
        ++ Locoflow.hi :: List.replicate (Locoflow.n - k) 0 := by
  rw [Locoflow.redraw_tapes_alpha, if_pos (by omega), pySet_succ _ _ _ h1]
  exact comet_shape 0 Locoflow.lo Locoflow.hi Locoflow.n k h1 h2

/-- redraw_tapes of the flow dashboard at frame 0 writes the all zero
list: the guarded value hi if k > 0 else 0 collapses to 0. -/
lemma Locoflow.redraw_tapes_alpha_zero :
    Locoflow.redraw_tapes_alpha 0 = List.replicate Locoflow.n 0 := by
  rw [Locoflow.redraw_tapes_alpha, if_neg (by omega)]
  have h0 : ((0 : ℕ) : ℤ) - 1 = -1 := by norm_num
  rw [h0, pySet_neg_one, map_range_zero_lt]
  exact set_replicate_self 0 Locoflow.n _

/-- redraw_points of the flow dashboard at a frame k below n writes a
single 1 at position k and zero elsewhere. -/
lemma Locoflow.redraw_points_alpha_eq (k : ℕ) (h : k < Locoflow.n) :
    Locoflow.redraw_points_alpha k
      = List.replicate k 0 ++ 1 :: List.replicate (Locoflow.n - k - 1) 0 := by
  rw [Locoflow.redraw_points_alpha]
  exact single_shape 0 1 Locoflow.n k h

/-- redraw_points of the flow dashboard at a frame k at or above n writes
the all zero list: no position matches k. -/
lemma Locoflow.redraw_points_alpha_ge (k : ℕ) (h : Locoflow.n ≤ k) :
    Locoflow.redraw_points_alpha k = List.replicate Locoflow.n 0 := by
  rw [Locoflow.redraw_points_alpha]
  exact single_shape_ge 0 1 Locoflow.n k h

/-- Reading position i of a python list comprehension over range m. -/
lemma getD_map_range {α : Type} (f : ℕ → α) (m i : ℕ) (hi : i < m) (z : α) :
    ((List.range m).map f).getD i z = f i := by
  rw [List.getD_eq_getElem _ _ (by simpa using hi), List.getElem_map,
    List.getElem_range]

/-- Reading back the written key of a dict assignment. -/
lemma dictSet_same (d : ColumnData) (key : String) (v : List ℚ) :
    dictSet d key v key = v := by
  rw [dictSet]
  simp

/-- Reading any other key of a dict assignment. -/
lemma dictSet_other (d : ColumnData) (key s : String) (v : List ℚ) (h : s ≠ key) :
    dictSet d key v s = d s := by
  rw [dictSet]
  simp [h]

/-- Reading back the written key of a path dict assignment. -/
lemma pathSet_same (d : PathData) (key : String) (v : List (List ℚ)) :
    pathSet d key v key = v := by
  rw [pathSet]
  simp

/-- Reading any other key of a path dict assignment. -/
lemma pathSet_other (d : PathData) (key s : String) (v : List (List ℚ)) (h : s ≠ key) :
    pathSet d key v s = d s := by
  rw [pathSet]
  simp [h]

/-- The xs column after redraw_lines holds the first k samples of every
series. -/
lemma Locoflow.redraw_lines_xs (xv yv : List (List ℚ)) (k : ℕ) (d : PathData) :
    (Locoflow.redraw_lines xv yv k d) "xs" = xv.map (fun x => x.take k) := by
  rw [Locoflow.redraw_lines, pathSet_other _ _ _ _ (by decide), pathSet_same]

/-- The ys column after redraw_lines holds the first k samples of every
series. -/
lemma Locoflow.redraw_lines_ys (xv yv : List (List ℚ)) (k : ℕ) (d : PathData) :
    (Locoflow.redraw_lines xv yv k d) "ys" = yv.map (fun y => y.take k) := by
  rw [Locoflow.redraw_lines, pathSet_same]

/-- The frame index after one animate call of the dams dashboard. -/
lemma Locodams.animate_index (nlist : List ℕ) (s : Locodams.State) :
    (Locodams.animate nlist s).index
      = if s.index < nlist.getD 0 0 then s.index + 1 else 0 := by
  unfold Locodams.animate
  split <;> rfl

/-- The frame index after one animate call of the flow dashboard. -/
lemma Locoflow.animate_index_flow (xv yv : List (List ℚ)) (s : Locoflow.State) :
    (Locoflow.animate xv yv s).index = flowIndexStep s.index := by
  unfold Locoflow.animate flowIndexStep
  split <;> rfl

/-- The frame index after t animate calls of the flow dashboard depends
only on the starting index. -/
lemma Locoflow.iterate_animate_index (xv yv : List (List ℚ)) (t : ℕ)
    (s : Locoflow.State) :
    ((Locoflow.animate xv yv)^[t] s).index = flowIndexStep^[t] s.index := by
  induction t generalizing s with
  | zero => rfl
  | succ t ih =>
      rw [Function.iterate_succ_apply, Function.iterate_succ_apply, ih,
        Locoflow.animate_index_flow]

/-- A later dict assignment to the same key overrides an earlier one. -/
lemma dictSet_override (d : ColumnData) (key : String) (v w : List ℚ) :
    dictSet (dictSet d key v) key w = dictSet d key w := by
  funext s
  simp only [dictSet]
  split_ifs <;> rfl

/-- A later redraw_points overrides an earlier one. -/
lemma Locoflow.redraw_points_override (ds : List ColumnData) (k1 k2 : ℕ) :
    Locoflow.redraw_points (Locoflow.redraw_points ds k1) k2
      = Locoflow.redraw_points ds k2 := by
  unfold Locoflow.redraw_points
  rw [List.map_map]
  exact List.map_congr_left (fun d _ => dictSet_override d "fill_alpha" _ _)

/-- A later redraw_tapes overrides an earlier one. -/
lemma Locoflow.redraw_tapes_override (ds : List ColumnData) (k1 k2 : ℕ) :
    Locoflow.redraw_tapes (Locoflow.redraw_tapes ds k1) k2
      = Locoflow.redraw_tapes ds k2 := by
  unfold Locoflow.redraw_tapes
  rw [List.map_map]
  exact List.map_congr_left (fun d _ => dictSet_override d "fill_alpha" _ _)

/-- A later redraw_lines overrides an earlier one. -/
lemma Locoflow.redraw_lines_override (xv yv : List (List ℚ)) (k1 k2 : ℕ)
    (d : PathData) :
    Locoflow.redraw_lines xv yv k2 (Locoflow.redraw_lines xv yv k1 d)
      = Locoflow.redraw_lines xv yv k2 d := by
  funext s
  simp only [Locoflow.redraw_lines, pathSet]
  split_ifs <;> rfl

/-- Characterization of t successive animate calls of the flow dashboard
from a start state at index 0, for 1 <= t <= n: the index is t and every
element shows the redraw for frame t. -/
lemma Locoflow.iterate_animate_eq (xv yv : List (List ℚ)) (s : Locoflow.State)
    (hs : s.index = 0) (t : ℕ) (h1 : 1 ≤ t) (h2 : t ≤ Locoflow.n) :
    (Locoflow.animate xv yv)^[t] s
      = { index := t,
          points := Locoflow.redraw_points s.points t,
          tapes := Locoflow.redraw_tapes s.tapes t,
          lines := Locoflow.redraw_lines xv yv t s.lines,
          sliderValue := t } := by
  induction t with
  | zero => omega
  | succ t ih =>
      by_cases ht : t = 0
      · subst ht
        rw [Function.iterate_one]
        unfold Locoflow.animate
        rw [if_pos (by rw [hs]; norm_num [Locoflow.n])]
        rw [hs]
      · rw [Function.iterate_succ_apply', ih (by omega) (by omega)]
        unfold Locoflow.animate
        rw [if_pos (show t < Locoflow.n by omega)]
        rw [Locoflow.redraw_points_override, Locoflow.redraw_tapes_override,
          Locoflow.redraw_lines_override]

/-- One controller step of the dams dashboard keeps the index within the
range bound N = n[0], provided a slider move stays within it. -/
lemma Locodams.step_index_le (nlist : List ℕ) (o : Op) (s : Locodams.State)
    (ho : ∀ k, o = Op.set k → k ≤ nlist.getD 0 0)
    (hs : s.index ≤ nlist.getD 0 0) :
    (Locodams.step nlist o s).index ≤ nlist.getD 0 0 := by
  cases o with
  | tick =>
      show (Locodams.animate nlist s).index ≤ _
      rw [Locodams.animate_index]
      split_ifs with h <;> omega
  | set k => exact ho k rfl

/-- Any step sequence of the dams dashboard keeps the index within N. -/
lemma Locodams.run_index_le (nlist : List ℕ) (ops : List Op) (s : Locodams.State)
    (hs : s.index ≤ nlist.getD 0 0)
    (hb : ∀ k, Op.set k ∈ ops → k ≤ nlist.getD 0 0) :
    (Locodams.run nlist ops s).index ≤ nlist.getD 0 0 := by
  induction ops generalizing s with
  | nil => exact hs
  | cons o rest ih =>
      exact ih (Locodams.step nlist o s)
        (Locodams.step_index_le nlist o s
          (fun k hk => hb k (by rw [← hk]; exact List.mem_cons_self o rest)) hs)
        (fun k hk => hb k (List.mem_cons_of_mem o hk))

/-- One controller step of the flow dashboard keeps the index within n,
provided a slider move stays within it. -/
lemma Locoflow.step_index_le_flow (xv yv : List (List ℚ)) (o : Op) (s : Locoflow.State)
    (ho : ∀ k, o = Op.set k → k ≤ Locoflow.n)
    (hs : s.index ≤ Locoflow.n) :
    (Locoflow.step xv yv o s).index ≤ Locoflow.n := by
  cases o with
  | tick =>
      show (Locoflow.animate xv yv s).index ≤ _
      rw [Locoflow.animate_index_flow]
      unfold flowIndexStep
      split_ifs with h <;> omega
  | set k => exact ho k rfl

/-- Any step sequence of the flow dashboard keeps the index within n. -/
lemma Locoflow.run_index_le_flow (xv yv : List (List ℚ)) (ops : List Op)
    (s : Locoflow.State) (hs : s.index ≤ Locoflow.n)
    (hb : ∀ k, Op.set k ∈ ops → k ≤ Locoflow.n) :
    (Locoflow.run xv yv ops s).index ≤ Locoflow.n := by
  induction ops generalizing s with
  | nil => exact hs
  | cons o rest ih =>
      exact ih (Locoflow.step xv yv o s)
        (Locoflow.step_index_le_flow xv yv o s
          (fun k hk => hb k (by rw [← hk]; exact List.mem_cons_self o rest)) hs)
        (fun k hk => hb k (List.mem_cons_of_mem o hk))

/-- Facts about truncating every series of a list to its first k samples,
as redraw_lines does for both the xs and the ys column. -/
lemma take_map_facts (lv : List (List ℚ)) (k : ℕ)
    (hl : ∀ x ∈ lv, x.length = Locoflow.n) (hk : k ≤ Locoflow.n) :
    (∀ p ∈ lv.map (fun x => x.take k), p.length = k)
    ∧ (∀ j : ℕ, (lv.map (fun x => x.take k)).getD j []
        <+: (lv.map (fun x => x.take (k + 1))).getD j [])
    ∧ (∀ p ∈ lv.map (fun x => x.take 0), p = [])
    ∧ lv.map (fun x => x.take Locoflow.n) = lv := by
  refine ⟨?_, ?_, ?_, ?_⟩
  · intro p hp
    obtain ⟨x, hxm, hx⟩ := List.mem_map.mp hp
    rw [← hx, List.length_take, hl x hxm]
    omega
  · intro j
    by_cases hj : j < lv.length
    · rw [List.getD_eq_getElem _ _ (by simpa using hj),
        List.getD_eq_getElem _ _ (by simpa using hj), List.getElem_map,
        List.getElem_map]
      have h := List.take_prefix k (lv[j].take (k + 1))
      rwa [List.take_take, min_eq_left (by omega)] at h
    · rw [List.getD_eq_default _ _ (by simpa using not_lt.mp hj)]
      exact List.nil_prefix
  · intro p hp
    obtain ⟨x, hxm, hx⟩ := List.mem_map.mp hp
    rw [← hx, List.take_zero]
  · have h : ∀ x ∈ lv, x.take Locoflow.n = id x := by
      intro x hxm
      rw [← hl x hxm, List.take_length, id]
    rw [List.map_congr_left h, List.map_id]

/-- Claim C6: after redraw_lines at any k with 0 <= k <= n, every visible
path in the xs and ys columns has length exactly k; the paths at k are
prefixes of the paths at k + 1 (so path length never decreases as k
grows); at k = 0 every path is empty; at k = n the full series is shown;
all under the series length assumption len(x) = n recorded in the
source. -/
theorem C6_cumulative_path (xv yv : List (List ℚ)) (dp : PathData) (k : ℕ)
    (hx : ∀ x ∈ xv, x.length = Locoflow.n) (hy : ∀ y ∈ yv, y.length = Locoflow.n)
    (hk : k ≤ Locoflow.n) :
    (∀ p ∈ (Locoflow.redraw_lines xv yv k dp) "xs", p.length = k)
    ∧ (∀ p ∈ (Locoflow.redraw_lines xv yv k dp) "ys", p.length = k)
    ∧ (∀ j : ℕ, ((Locoflow.redraw_lines xv yv k dp) "xs").getD j []
        <+: ((Locoflow.redraw_lines xv yv (k + 1) dp) "xs").getD j [])
    ∧ (∀ j : ℕ, ((Locoflow.redraw_lines xv yv k dp) "ys").getD j []
        <+: ((Locoflow.redraw_lines xv yv (k + 1) dp) "ys").getD j [])
    ∧ (∀ p ∈ (Locoflow.redraw_lines xv yv 0 dp) "xs", p = [])
    ∧ (∀ p ∈ (Locoflow.redraw_lines xv yv 0 dp) "ys", p = [])
    ∧ (Locoflow.redraw_lines xv yv Locoflow.n dp) "xs" = xv
    ∧ (Locoflow.redraw_lines xv yv Locoflow.n dp) "ys" = yv := by
  have hxf := take_map_facts xv k hx hk
  have hyf := take_map_facts yv k hy hk
  simp only [Locoflow.redraw_lines_xs, Locoflow.redraw_lines_ys]
  exact ⟨hxf.1, hyf.1, hxf.2.1, hyf.2.1, hxf.2.2.1, hyf.2.2.1, hxf.2.2.2, hyf.2.2.2⟩

/-- Witness for claim C6 at k = 3 with one x series and one y series of
length n, all hypotheses discharged at these values. -/
theorem C6_cumulative_path_witness :
    (∀ p ∈ (Locoflow.redraw_lines [List.replicate Locoflow.n 0]
        [List.replicate Locoflow.n 1] 3 emptyPath) "xs", p.length = 3)
    ∧ (∀ p ∈ (Locoflow.redraw_lines [List.replicate Locoflow.n 0]
        [List.replicate Locoflow.n 1] 3 emptyPath) "ys", p.length = 3)
    ∧ (∀ j : ℕ, ((Locoflow.redraw_lines [List.replicate Locoflow.n 0]
          [List.replicate Locoflow.n 1] 3 emptyPath) "xs").getD j []
        <+: ((Locoflow.redraw_lines [List.replicate Locoflow.n 0]
          [List.replicate Locoflow.n 1] (3 + 1) emptyPath) "xs").getD j [])
    ∧ (∀ j : ℕ, ((Locoflow.redraw_lines [List.replicate Locoflow.n 0]
          [List.replicate Locoflow.n 1] 3 emptyPath) "ys").getD j []
        <+: ((Locoflow.redraw_lines [List.replicate Locoflow.n 0]
          [List.replicate Locoflow.n 1] (3 + 1) emptyPath) "ys").getD j [])
    ∧ (∀ p ∈ (Locoflow.redraw_lines [List.replicate Locoflow.n 0]
        [List.replicate Locoflow.n 1] 0 emptyPath) "xs", p = [])
    ∧ (∀ p ∈ (Locoflow.redraw_lines [List.replicate Locoflow.n 0]
        [List.replicate Locoflow.n 1] 0 emptyPath) "ys", p = [])
    ∧ (Locoflow.redraw_lines [List.replicate Locoflow.n 0]
        [List.replicate Locoflow.n 1] Locoflow.n emptyPath) "xs"
        = [List.replicate Locoflow.n 0]
    ∧ (Locoflow.redraw_lines [List.replicate Locoflow.n 0]
        [List.replicate Locoflow.n 1] Locoflow.n emptyPath) "ys"
        = [List.replicate Locoflow.n 1] :=
  C6_cumulative_path [List.replicate Locoflow.n 0] [List.replicate Locoflow.n 1]
    emptyPath 3
    (by intro x hm; rw [List.mem_singleton] at hm; rw [hm, List.length_replicate])
    (by intro y hm; rw [List.mem_singleton] at hm; rw [hm, List.length_replicate])
    (by norm_num [Locoflow.n])

/-- Claim C1: the claim, which demands an all zero opacity list at k = 0
from both comet trail redraws, holds for redraw_tapes of the flow
dashboard (its highlight value is guarded by k > 0) but fails for
redraw2 of the dams dashboard: there alpha[k-1] at k = 0 is the python
negative index -1 and writes hi = 9/10 to the LAST entry, so for a
series of length 72 the written list is 71 zeros followed by hi, which
is not all zero.  This theorem evaluates both redraws at the failing
input k = 0. -/
theorem C1_zero_frame_eval :
    Locoflow.redraw_tapes_alpha 0 = List.replicate Locoflow.n 0
    ∧ Locodams.redraw2_alpha 72 0 = List.replicate 71 0 ++ [Locodams.hi]
    ∧ Locodams.hi ≠ 0 := by
  refine ⟨Locoflow.redraw_tapes_alpha_zero, ?_, by norm_num [Locodams.hi]⟩
  have h := Locodams.redraw2_alpha_zero 72 (by norm_num)
  simpa using h

/-- Claim C8: update, the play pause button callback, toggles on the
button label: pressed twice from the stopped state (label Play, no
periodic callback registered) it returns the playback state to exactly
the stopped state with zero periodic callbacks registered, in both
dashboards, so no further animate tick can fire. -/
theorem C8_toggle_involution :
    Locodams.update (Locodams.update Playback.stopped) = Playback.stopped
    ∧ (Locodams.update (Locodams.update Playback.stopped)).timers = 0
    ∧ Locoflow.update (Locoflow.update Playback.stopped) = Playback.stopped
    ∧ (Locoflow.update (Locoflow.update Playback.stopped)).timers = 0 := by
  refine ⟨?_, ?_, ?_, ?_⟩ <;> rfl

/-- Claim C10: for every frame index k, the opacity list written into the
fill_alpha key of an element data source by redraw2 has length exactly
the series length m of that element, and the one written by
redraw_tapes has length exactly n = 145: redraws never grow or shrink
the visual parameter arrays. -/
theorem C10_alpha_length (m k : ℕ) (d : ColumnData) :
    ((Locodams.redraw2_elem m k d) "fill_alpha").length = m
    ∧ ((dictSet d "fill_alpha" (Locoflow.redraw_tapes_alpha k)) "fill_alpha").length
        = Locoflow.n := by
  rw [Locodams.redraw2_elem, dictSet_same, dictSet_same]
  constructor
  · rw [Locodams.redraw2_alpha, pySet]
    split_ifs <;> simp
  · rw [Locoflow.redraw_tapes_alpha, pySet]
    split_ifs <;> simp

/-- Claim C4: for every frame k with 1 <= k < m, the comet trail redraw
leaves each element opacity list equal to k - 1 entries at lo, then one
entry at hi at position k - 1, then zeros, hence exactly one entry at
hi, exactly k - 1 entries at lo and the rest zero; stated for redraw2
of the dams dashboard (element series length m) and for redraw_tapes of
the flow dashboard (length n = 145). -/
theorem C4_comet_trail (m k : ℕ) (d : ColumnData) (h1 : 1 ≤ k) (h2 : k < m) :
    ((Locodams.redraw2_elem m k d) "fill_alpha"
        = List.replicate (k - 1) Locodams.lo
          ++ Locodams.hi :: List.replicate (m - k) 0)
    ∧ ((Locodams.redraw2_elem m k d) "fill_alpha").count Locodams.hi = 1
    ∧ ((Locodams.redraw2_elem m k d) "fill_alpha").count Locodams.lo = k - 1
    ∧ ((Locodams.redraw2_elem m k d) "fill_alpha").count 0 = m - k
    ∧ (k < Locoflow.n →
        Locoflow.redraw_tapes_alpha k
          = List.replicate (k - 1) Locoflow.lo
            ++ Locoflow.hi :: List.replicate (Locoflow.n - k) 0
        ∧ (Locoflow.redraw_tapes_alpha k).count Locoflow.hi = 1
        ∧ (Locoflow.redraw_tapes_alpha k).count Locoflow.lo = k - 1
        ∧ (Locoflow.redraw_tapes_alpha k).count 0 = Locoflow.n - k) := by
  have hd : (Locodams.redraw2_elem m k d) "fill_alpha"
      = List.replicate (k - 1) Locodams.lo
        ++ Locodams.hi :: List.replicate (m - k) 0 := by
    rw [Locodams.redraw2_elem, dictSet_same]
    exact Locodams.redraw2_alpha_eq m k h1 (by omega)
  refine ⟨hd, ?_, ?_, ?_, ?_⟩
  · rw [hd, count_trail]
    norm_num [Locodams.lo, Locodams.hi]
  · rw [hd, count_trail]
    norm_num [Locodams.lo, Locodams.hi]
  · rw [hd, count_trail]
    norm_num [Locodams.lo, Locodams.hi]
  · intro hkn
    have hf : Locoflow.redraw_tapes_alpha k
        = List.replicate (k - 1) Locoflow.lo
          ++ Locoflow.hi :: List.replicate (Locoflow.n - k) 0 :=
      Locoflow.redraw_tapes_alpha_eq k h1 (by omega)
    refine ⟨hf, ?_, ?_, ?_⟩
    · rw [hf, count_trail]
      norm_num [Locoflow.lo, Locoflow.hi]
    · rw [hf, count_trail]
      norm_num [Locoflow.lo, Locoflow.hi]
    · rw [hf, count_trail]
      norm_num [Locoflow.lo, Locoflow.hi]

/-- Witness for claim C4 at the concrete frame k = 3 for a dams element
of series length 5 and for the flow tapes, with all hypotheses
discharged at these values. -/
theorem C4_comet_trail_witness :
    ((Locodams.redraw2_elem 5 3 emptyColumn) "fill_alpha"
        = List.replicate (3 - 1) Locodams.lo
          ++ Locodams.hi :: List.replicate (5 - 3) 0)
    ∧ ((Locodams.redraw2_elem 5 3 emptyColumn) "fill_alpha").count Locodams.hi = 1
    ∧ ((Locodams.redraw2_elem 5 3 emptyColumn) "fill_alpha").count Locodams.lo = 3 - 1
    ∧ ((Locodams.redraw2_elem 5 3 emptyColumn) "fill_alpha").count 0 = 5 - 3
    ∧ (Locoflow.redraw_tapes_alpha 3
          = List.replicate (3 - 1) Locoflow.lo
            ++ Locoflow.hi :: List.replicate (Locoflow.n - 3) 0
        ∧ (Locoflow.redraw_tapes_alpha 3).count Locoflow.hi = 1
        ∧ (Locoflow.redraw_tapes_alpha 3).count Locoflow.lo = 3 - 1
        ∧ (Locoflow.redraw_tapes_alpha 3).count 0 = Locoflow.n - 3) := by
  have h := C4_comet_trail 5 3 emptyColumn (by norm_num) (by norm_num)
  exact ⟨h.1, h.2.1, h.2.2.1, h.2.2.2.1, h.2.2.2.2 (by norm_num [Locoflow.n])⟩

/-- Claim C9: for any frame index k, each redraw only rewrites the visual
parameter keys of the data sources: redraw2, redraw_points and
redraw_tapes rewrite only fill_alpha, redraw_lines rewrites only xs and
ys; every other key of every data source reads back unchanged. -/
theorem C9_frame_effect (m k : ℕ) (d : ColumnData) (dp : PathData)
    (xv yv : List (List ℚ)) (key : String)
    (hk : key ≠ "fill_alpha") (hx : key ≠ "xs") (hy : key ≠ "ys") :
    (Locodams.redraw2_elem m k d) key = d key
    ∧ (dictSet d "fill_alpha" (Locoflow.redraw_points_alpha k)) key = d key
    ∧ (dictSet d "fill_alpha" (Locoflow.redraw_tapes_alpha k)) key = d key
    ∧ (Locoflow.redraw_lines xv yv k dp) key = dp key := by
  refine ⟨?_, ?_, ?_, ?_⟩
  · rw [Locodams.redraw2_elem, dictSet_other _ _ _ _ hk]
  · rw [dictSet_other _ _ _ _ hk]
  · rw [dictSet_other _ _ _ _ hk]
  · rw [Locoflow.redraw_lines, pathSet_other _ _ _ _ hy, pathSet_other _ _ _ _ hx]

/-- Witness for claim C9 at the concrete frame k = 4 and the coordinate
key x, which none of the redraws may touch. -/
theorem C9_frame_effect_witness :
    (Locodams.redraw2_elem 5 4 emptyColumn) "x" = emptyColumn "x"
    ∧ (dictSet emptyColumn "fill_alpha" (Locoflow.redraw_points_alpha 4)) "x"
        = emptyColumn "x"
    ∧ (dictSet emptyColumn "fill_alpha" (Locoflow.redraw_tapes_alpha 4)) "x"
        = emptyColumn "x"
    ∧ (Locoflow.redraw_lines [] [] 4 emptyPath) "x" = emptyPath "x" :=
  C9_frame_effect 5 4 emptyColumn emptyPath [] [] "x" (by decide) (by decide)
    (by decide)

/-- Claim C5: the frame index invariant holds in both dashboards: from a
start state at index 0, any sequence of animate ticks and slider moves
restricted to values k <= N keeps the index within [0, N] (the lower
bound holds because the index is a natural number), where N is n[0] for
the dams dashboard and n = 145 for the flow dashboard; moreover an
animate tick taken at index N wraps the index to 0. -/
theorem C5_frame_index_invariant (nlist : List ℕ) (xv yv : List (List ℚ))
    (ops1 ops2 : List Op) (s1 : Locodams.State) (s2 : Locoflow.State)
    (h1 : s1.index = 0) (h2 : s2.index = 0)
    (hb1 : ∀ k, Op.set k ∈ ops1 → k ≤ nlist.getD 0 0)
    (hb2 : ∀ k, Op.set k ∈ ops2 → k ≤ Locoflow.n) :
    (Locodams.run nlist ops1 s1).index ≤ nlist.getD 0 0
    ∧ (Locoflow.run xv yv ops2 s2).index ≤ Locoflow.n
    ∧ (∀ t : Locodams.State, t.index = nlist.getD 0 0 →
        (Locodams.animate nlist t).index = 0)
    ∧ (∀ t : Locoflow.State, t.index = Locoflow.n →
        (Locoflow.animate xv yv t).index = 0) := by
  refine ⟨Locodams.run_index_le nlist ops1 s1 (by omega) hb1,
    Locoflow.run_index_le_flow xv yv ops2 s2 (by omega) hb2, ?_, ?_⟩
  · intro t ht
    rw [Locodams.animate_index, if_neg (by omega)]
  · intro t ht
    rw [Locoflow.animate_index_flow]
    unfold flowIndexStep
    rw [if_neg (by omega)]

/-- Witness for claim C5 on concrete operation sequences mixing ticks and
a slider move, from concrete start states at index 0. -/
theorem C5_frame_index_invariant_witness :
    (Locodams.run [72] [Op.tick, Op.set 5, Op.tick] damsStart).index
        ≤ [72].getD 0 0
    ∧ (Locoflow.run [] [] [Op.tick, Op.set 144, Op.tick] flowStart).index
        ≤ Locoflow.n
    ∧ (∀ t : Locodams.State, t.index = [72].getD 0 0 →
        (Locodams.animate [72] t).index = 0)
    ∧ (∀ t : Locoflow.State, t.index = Locoflow.n →
        (Locoflow.animate [] [] t).index = 0) :=
  C5_frame_index_invariant [72] [] [] [Op.tick, Op.set 5, Op.tick]
    [Op.tick, Op.set 144, Op.tick] damsStart flowStart rfl rfl
    (by intro k hk; simp at hk; subst hk; decide)
    (by intro k hk; simp at hk; subst hk; decide)

/-- Counterexample to claim C2: in the flow dashboard an animate call
taken at index n resets only the index and the slider; every element
data source is left untouched, so a tape opacity array that held the
nonzero column [1] before the call still holds [1] after it, not the
claimed all zero cleared state. -/
theorem C2_counterexample :
    (Locoflow.animate [] [] flowWrapState).index = 0
    ∧ ((Locoflow.animate [] [] flowWrapState).tapes.getD 0 emptyColumn)
        "fill_alpha" = [1]
    ∧ [(1 : ℚ)] ≠ [0] := by
  refine ⟨rfl, rfl, by simp⟩

/-- Claim C2 as amended: an animate call taken at index N resets the
index (and the slider) to 0 in both dashboards; the dams dashboard also
writes an all zero opacity array of length n[j] to every element, but
the flow dashboard leaves every element data source untouched, its
reset branch only zeroing the index. -/
theorem C2_amended (nlist : List ℕ) (xv yv : List (List ℚ))
    (s : Locodams.State) (t : Locoflow.State)
    (hs : s.index = nlist.getD 0 0) (hlen : nlist.length = s.ds.length)
    (ht : t.index = Locoflow.n) :
    ((Locodams.animate nlist s).index = 0
      ∧ ∀ j, j < nlist.length →
          ((Locodams.animate nlist s).ds.getD j emptyColumn) "fill_alpha"
            = List.replicate (nlist.getD j 0) 0)
    ∧ Locoflow.animate xv yv t = { t with index := 0, sliderValue := 0 } := by
  have hanim : Locodams.animate nlist s
      = { index := 0,
          ds := (nlist.zip s.ds).map
            (fun p => dictSet p.2 "fill_alpha" (List.replicate p.1 0)),
          sliderValue := 0 } := by
    unfold Locodams.animate
    rw [if_neg (by omega)]
  refine ⟨⟨by rw [hanim], ?_⟩, ?_⟩
  · intro j hj
    have hjz : j < ((nlist.zip s.ds).map
        (fun p => dictSet p.2 "fill_alpha" (List.replicate p.1 0))).length := by
      simp [List.length_zip]
      omega
    rw [hanim]
    rw [List.getD_eq_getElem _ _ hjz, List.getElem_map, List.getElem_zip,
      dictSet_same, List.getD_eq_getElem _ _ hj]
  · unfold Locoflow.animate
    rw [if_neg (by omega)]

/-- Witness for claim C2 as amended, at a dams state with one element of
series length 2 sitting at index n[0] = 2 and a flow state sitting at
index n. -/
theorem C2_amended_witness :
    ((Locodams.animate [2] damsWrapState).index = 0
      ∧ ∀ j, j < [2].length →
          ((Locodams.animate [2] damsWrapState).ds.getD j emptyColumn)
            "fill_alpha" = List.replicate ([2].getD j 0) 0)
    ∧ Locoflow.animate [] [] flowWrapState
        = { flowWrapState with index := 0, sliderValue := 0 } :=
  C2_amended [2] [] [] damsWrapState flowWrapState rfl rfl rfl

set_option maxRecDepth 4000 in
/-- Counterexample to claim C3: in the flow dashboard the series length
is n = 145, not 144, so 144 animate ticks from index 0 end at index
144, not at a reset to 0. -/
theorem C3_counterexample :
    ((Locoflow.animate [] [])^[144] flowStart).index = 144
    ∧ ((Locoflow.animate [] [])^[144] flowStart).index ≠ 0 := by
  have h : ((Locoflow.animate [] [])^[144] flowStart).index
      = flowIndexStep^[144] 0 :=
    Locoflow.iterate_animate_index [] [] 144 flowStart
  constructor
  · rw [h]
    decide
  · rw [h]
    decide

/-- Claim C3 as amended: with n = 145 the wraparound takes 146 ticks, not
144: from index 0, tick number 145 is the last incrementing call and
redraws every element at frame 145, and tick number 146 takes the reset
branch, which returns the index (and slider) to 0 but leaves all
element data at the frame 145 redraw; at that frame the point marker
opacity lists are in fact all zero (no position matches 145), while the
tape lists keep the comet trail. -/
theorem C3_amended (xv yv : List (List ℚ)) (s : Locoflow.State)
    (hs : s.index = 0) :
    ((Locoflow.animate xv yv)^[146] s).index = 0
    ∧ (Locoflow.animate xv yv)^[146] s
        = { index := 0,
            points := Locoflow.redraw_points s.points Locoflow.n,
            tapes := Locoflow.redraw_tapes s.tapes Locoflow.n,
            lines := Locoflow.redraw_lines xv yv Locoflow.n s.lines,
            sliderValue := 0 }
    ∧ Locoflow.redraw_points_alpha Locoflow.n = List.replicate Locoflow.n 0 := by
  have h145 := Locoflow.iterate_animate_eq xv yv s hs 145 (by norm_num)
    (by norm_num [Locoflow.n])
  have hstep : (Locoflow.animate xv yv)^[146] s
      = Locoflow.animate xv yv ((Locoflow.animate xv yv)^[145] s) := by
    rw [show (146 : ℕ) = 145 + 1 from rfl, Function.iterate_succ_apply']
  have hfin : Locoflow.animate xv yv ((Locoflow.animate xv yv)^[145] s)
      = { index := 0,
          points := Locoflow.redraw_points s.points Locoflow.n,
          tapes := Locoflow.redraw_tapes s.tapes Locoflow.n,
          lines := Locoflow.redraw_lines xv yv Locoflow.n s.lines,
          sliderValue := 0 } := by
    rw [h145]
    unfold Locoflow.animate
    rw [if_neg (by norm_num [Locoflow.n])]
    rfl
  refine ⟨?_, ?_, Locoflow.redraw_points_alpha_ge Locoflow.n le_rfl⟩
  · rw [hstep, hfin]
  · rw [hstep, hfin]

/-- Witness for claim C3 as amended, from the concrete flow start state
at index 0 with no bound elements. -/
theorem C3_amended_witness :
    ((Locoflow.animate [] [])^[146] flowStart).index = 0
    ∧ (Locoflow.animate [] [])^[146] flowStart
        = { index := 0,
            points := Locoflow.redraw_points flowStart.points Locoflow.n,
            tapes := Locoflow.redraw_tapes flowStart.tapes Locoflow.n,
            lines := Locoflow.redraw_lines [] [] Locoflow.n flowStart.lines,
            sliderValue := 0 }
    ∧ Locoflow.redraw_points_alpha Locoflow.n = List.replicate Locoflow.n 0 :=
  C3_amended [] [] flowStart rfl

/-- Counterexample to claim C7: the frame index 145 = n is reachable (the
145th animate tick from index 0 increments the index to 145 and calls
redraw_points with it), and at that frame the opacity list written by
redraw_points contains no entry 1 at all, so no point is visible rather
than exactly one. -/
theorem C7_counterexample :
    ((Locoflow.animate [] [])^[145] flowStartP).index = 145
    ∧ (((Locoflow.animate [] [])^[145] flowStartP).points.getD 0 emptyColumn)
        "fill_alpha" = Locoflow.redraw_points_alpha 145
    ∧ (Locoflow.redraw_points_alpha 145).count 1 = 0 := by
  have h := Locoflow.iterate_animate_eq [] [] flowStartP rfl 145 (by norm_num)
    (by norm_num [Locoflow.n])
  rw [h]
  refine ⟨rfl, rfl, ?_⟩
  rw [show (145 : ℕ) = Locoflow.n from rfl,
    Locoflow.redraw_points_alpha_ge Locoflow.n le_rfl, List.count_replicate]
  norm_num

/-- Claim C7 as amended: at every frame k the opacity list written by
redraw_points has entry 1 at position i exactly when i = k; for the
reachable frames k < n this makes exactly one point visible, but at the
reachable frame k = n no position matches and no point is visible. -/
theorem C7_amended (k i : ℕ) (hi : i < Locoflow.n) :
    ((Locoflow.redraw_points_alpha k).getD i 0 = 1 ↔ i = k)
    ∧ (k < Locoflow.n → (Locoflow.redraw_points_alpha k).count 1 = 1)
    ∧ (Locoflow.redraw_points_alpha Locoflow.n).count 1 = 0 := by
  refine ⟨?_, ?_, ?_⟩
  · rw [Locoflow.redraw_points_alpha, getD_map_range _ _ _ hi]
    by_cases hik : i = k
    · simp [hik]
    · simp [hik]
  · intro hk
    rw [Locoflow.redraw_points_alpha_eq k hk, count_trail]
    norm_num
  · rw [Locoflow.redraw_points_alpha_ge Locoflow.n le_rfl, List.count_replicate]
    norm_num

/-- Witness for claim C7 as amended at the concrete frame k = 3 and
position i = 2. -/
theorem C7_amended_witness :
    ((Locoflow.redraw_points_alpha 3).getD 2 0 = 1 ↔ 2 = 3)
    ∧ (3 < Locoflow.n → (Locoflow.redraw_points_alpha 3).count 1 = 1)
    ∧ (Locoflow.redraw_points_alpha Locoflow.n).count 1 = 0 :=
  C7_amended 3 2 (by norm_num [Locoflow.n])

end DampPlains
